import Mathlib

/-
Verification of the NgbTooltip directive (src/tooltip/tooltip.ts).

The directive is embedded shallowly as a state machine.  A `TooltipState`
value carries the input properties of the directive, its private fields
(`_ngbTooltip`, `_windowRef`, `_unregisterListenersFn`, the positioning
and zone-subscription state), the observable DOM effect on the position
target element (its aria-describedby attribute), counters for the `shown`
and `hidden` events, and logs of the calls the directive makes into the
two utility modules (`listenToTriggers`, `ngbAutoClose`) and into
`PopupService.close`.

Asynchronous completions in the source (the `subscribe` callback inside
`close`, the microtask inside `open` that performs the first positioning
update and installs the zone-stability subscription, and the transition
observable that emits `shown`) are modelled as completing within the same
operation, which is their behaviour in the absence of interleaving.
-/

/-- The value of the `ngbTooltip` input: a string, a `TemplateRef`
(identified by an opaque numeric handle), or null/undefined (collapsed
into `undef`, both being falsy). -/
inductive TooltipContent where
  | undef
  | str (s : String)
  | template (ref : Nat)
  deriving DecidableEq, Repr

/-- JavaScript truthiness of a `TooltipContent` value: null/undefined and
the empty string are falsy; a `TemplateRef` object is always truthy. -/
def TooltipContent.truthy : TooltipContent → Bool
  | .undef => false
  | .str s => s ≠ ""
  | .template _ => true

/-- The `autoClose` input: `true`, `false`, the string "inside" or the
string "outside". -/
inductive AutoCloseMode where
  | on
  | off
  | inside
  | outside
  deriving DecidableEq, Repr

/-- The component reference returned by `PopupService.open`, after the
three `setInput` calls in `open()`.  `nativeElement` identifies the popup
DOM node (`windowRef.location.nativeElement`). -/
structure WindowRef where
  animation : Bool
  tooltipClass : String
  id : String
  nativeElement : Nat
  deriving DecidableEq, Repr

/-- A record of one call to `listenToTriggers` (triggers utility module):
the host element, the triggers string and the two delays after the unary
plus coercion.  The three callbacks passed are the bound `isOpen`, `open`
and `close` of the directive itself, which is fixed by construction in
`NgbTooltip.ngOnInit` below. -/
structure ListenCall where
  hostElement : Nat
  triggers : String
  openDelay : Int
  closeDelay : Int
  deriving DecidableEq, Repr

/-- A record of one call to `ngbAutoClose` (autoclose utility module):
the configured mode and the list of inside elements.  The close callback
passed is `() => this.close()` by construction in `NgbTooltip.openTooltip`
below. -/
structure AutoCloseCall where
  mode : AutoCloseMode
  elements : List Nat
  deriving DecidableEq, Repr

/-- The unary plus applied to `openDelay` / `closeDelay` in `ngOnInit`.
Both properties are declared with type `number`, on which the JavaScript
unary plus is the identity. -/
def jsUnaryPlus (n : Int) : Int := n

/-- The state of one `NgbTooltip` directive instance together with the
part of its environment the directive observes and mutates.

Input properties: `animation`, `autoClose`, `triggers`, `container`,
`disableTooltip`, `tooltipClass`, `openDelay`, `closeDelay`.

Private fields: `ngbTooltipContent` is `_ngbTooltip`;
`ngbTooltipWindowId` is `_ngbTooltipWindowId`; `windowRef` is
`_windowRef`; `unregisterListenersFn` records whether
`_unregisterListenersFn` holds a function (it is undefined until
`ngOnInit` runs); `positioningActive` records whether the popper instance
created by `_positioning.createPopper` is alive; `zoneSubscribed` records
whether `_zoneSubscription` is an active subscription to
`_ngZone.onStable`.

Environment: `hostElement` is the element the directive is applied to;
`targetAria` is the aria-describedby attribute of the position target
element (the directive resolves the target through
`_getPositionTargetElement`, which is constant for a fixed state);
`appendedToBody` records the `appendChild` move when `container` is
"body"; `updateCount` counts calls to `_positioning.update`;
`shownCount` and `hiddenCount` count emissions of the `shown` and
`hidden` events; `listenCalls`, `autoCloseCalls` and `popupCloseCalls`
log the calls into `listenToTriggers`, `ngbAutoClose` and
`PopupService.close` (most recent first); `unregisterCalls` counts
invocations of the stored unregister function; `nextElement` is a fresh
identifier supply for DOM nodes created by `PopupService.open`. -/
structure TooltipState where
  animation : Bool
  autoClose : AutoCloseMode
  triggers : String
  container : String
  disableTooltip : Bool
  tooltipClass : String
  openDelay : Int
  closeDelay : Int
  ngbTooltipContent : TooltipContent
  ngbTooltipWindowId : String
  hostElement : Nat
  windowRef : Option WindowRef
  unregisterListenersFn : Bool
  positioningActive : Bool
  zoneSubscribed : Bool
  targetAria : Option String
  appendedToBody : Bool
  updateCount : Nat
  shownCount : Nat
  hiddenCount : Nat
  listenCalls : List ListenCall
  autoCloseCalls : List AutoCloseCall
  popupCloseCalls : List Bool
  unregisterCalls : Nat
  nextElement : Nat
  deriving DecidableEq, Repr

/-- `isOpen()`: true iff `_windowRef != null` (tooltip.ts line 313). -/
def NgbTooltip.isOpen (s : TooltipState) : Bool :=
  s.windowRef.isSome

/-- The guard of `open()` (tooltip.ts line 228):
`!this._windowRef && this._ngbTooltip && !this.disableTooltip`. -/
def NgbTooltip.canOpen (s : TooltipState) : Bool :=
  s.windowRef.isNone && s.ngbTooltipContent.truthy && !s.disableTooltip

/-- `open(context?)` (tooltip.ts lines 227-277).  Named `openTooltip`
because `open` is a Lean keyword.  When the guard holds, the body:
opens the popup through `PopupService.open` (yielding a fresh window
component whose DOM node gets a fresh identifier), sets the `animation`,
`tooltipClass` and `id` inputs on the window, sets aria-describedby on
the position target to `_ngbTooltipWindowId`, appends the window element
to the body when `container` is "body", creates the popper instance,
performs the first positioning update and subscribes to zone stability,
calls `ngbAutoClose` with the configured mode, a close callback and the
window element, and subscribes `shown` to the transition (modelled as
the transition completing, emitting `shown`).  The `context` argument is
only forwarded to `PopupService.open` for template instantiation and
does not affect the directive state, so it is not a parameter here. -/
def NgbTooltip.openTooltip (s : TooltipState) : TooltipState :=
  if NgbTooltip.canOpen s then
    let w : WindowRef :=
      { animation := s.animation
        tooltipClass := s.tooltipClass
        id := s.ngbTooltipWindowId
        nativeElement := s.nextElement }
    { s with
      windowRef := some w
      nextElement := s.nextElement + 1
      targetAria := some s.ngbTooltipWindowId
      appendedToBody := s.container = "body"
      positioningActive := true
      updateCount := s.updateCount + 1
      zoneSubscribed := true
      autoCloseCalls := { mode := s.autoClose, elements := [w.nativeElement] } :: s.autoCloseCalls
      shownCount := s.shownCount + 1 }
  else s

/-- `close(animation)` (tooltip.ts lines 284-295).  When `_windowRef` is
not null: removes aria-describedby from the position target, calls
`PopupService.close(animation)` (logged), and in the completion callback
nulls `_windowRef`, destroys the positioning, unsubscribes the zone
subscription (the `?.` makes this a no-op when no subscription exists,
which coincides with setting `zoneSubscribed` to false) and emits
`hidden`.  Otherwise the state is untouched. -/
def NgbTooltip.close (anim : Bool) (s : TooltipState) : TooltipState :=
  if s.windowRef.isSome then
    { s with
      targetAria := none
      popupCloseCalls := anim :: s.popupCloseCalls
      windowRef := none
      positioningActive := false
      zoneSubscribed := false
      hiddenCount := s.hiddenCount + 1 }
  else s

/-- `close()` with the default argument `animation = this.animation`
(tooltip.ts line 284). -/
def NgbTooltip.closeDefault (s : TooltipState) : TooltipState :=
  NgbTooltip.close s.animation s

/-- `toggle()` (tooltip.ts lines 302-308): close with the default
animation when `_windowRef` exists, otherwise open. -/
def NgbTooltip.toggle (s : TooltipState) : TooltipState :=
  if s.windowRef.isSome then NgbTooltip.closeDefault s else NgbTooltip.openTooltip s

/-- The `ngbTooltip` input setter (tooltip.ts lines 209-215): stores the
value into `_ngbTooltip`, then calls `close()` (default animation) when
the value is falsy and `_windowRef` exists. -/
def NgbTooltip.setNgbTooltip (value : TooltipContent) (s : TooltipState) : TooltipState :=
  let s1 := { s with ngbTooltipContent := value }
  if !value.truthy && s.windowRef.isSome then NgbTooltip.closeDefault s1 else s1

/-- `ngOnInit()` (tooltip.ts lines 317-328): registers trigger listeners
through `listenToTriggers`, passing the host element, the triggers
string, the bound `isOpen`/`open`/`close` of this directive, and the two
delays coerced by unary plus; stores the returned unregister function
into `_unregisterListenersFn`. -/
def NgbTooltip.ngOnInit (s : TooltipState) : TooltipState :=
  { s with
    unregisterListenersFn := true
    listenCalls :=
      { hostElement := s.hostElement
        triggers := s.triggers
        openDelay := jsUnaryPlus s.openDelay
        closeDelay := jsUnaryPlus s.closeDelay } :: s.listenCalls }

/-- `ngOnChanges({tooltipClass})` (tooltip.ts lines 330-334): when the
`tooltipClass` input changed and the tooltip is open, writes the new
value onto the window component instance. -/
def NgbTooltip.ngOnChanges (tooltipClassChange : Option String) (s : TooltipState) : TooltipState :=
  match tooltipClassChange, s.windowRef with
  | some c, some w => { s with windowRef := some { w with tooltipClass := c } }
  | _, _ => s

/-- `ngOnDestroy()` (tooltip.ts lines 336-341): calls `close(false)`,
then invokes `_unregisterListenersFn` through the optional-call operator
`?.()`, which does nothing when `ngOnInit` never ran and the field is
still undefined. -/
def NgbTooltip.ngOnDestroy (s : TooltipState) : TooltipState :=
  let s1 := NgbTooltip.close false s
  if s1.unregisterListenersFn then { s1 with unregisterCalls := s1.unregisterCalls + 1 } else s1

/-- One `NgZone.onStable` notification: the subscription installed by
`open()` (tooltip.ts line 267) reacts by calling `_positioning.update`;
when no subscription is active nothing happens. -/
def zoneStable (s : TooltipState) : TooltipState :=
  if s.zoneSubscribed then { s with updateCount := s.updateCount + 1 } else s

/-- A freshly constructed directive with representative configuration
values, before `ngOnInit`: no window, no listeners registered, content
set to a nonempty string. -/
def sampleClosed : TooltipState :=
  { animation := false
    autoClose := .on
    triggers := "hover focus"
    container := ""
    disableTooltip := false
    tooltipClass := ""
    openDelay := 0
    closeDelay := 0
    ngbTooltipContent := .str "Hello"
    ngbTooltipWindowId := "ngb-tooltip-0"
    hostElement := 0
    windowRef := none
    unregisterListenersFn := false
    positioningActive := false
    zoneSubscribed := false
    targetAria := none
    appendedToBody := false
    updateCount := 0
    shownCount := 0
    hiddenCount := 0
    listenCalls := []
    autoCloseCalls := []
    popupCloseCalls := []
    unregisterCalls := 0
    nextElement := 1 }

/-- The sample directive after a successful `open()`. -/
def sampleOpen : TooltipState :=
  NgbTooltip.openTooltip sampleClosed

/-- The sample directive with `disableTooltip` set, used to exercise the
guard of `open()`. -/
def sampleDisabled : TooltipState :=
  { sampleClosed with disableTooltip := true }

/-- C1: isOpen() returns true exactly when a popup window reference
exists, and toggle() calls close() (with the default animation argument)
when a popup window exists and open() when none exists. -/
theorem NgbTooltip.isOpen_toggle_spec (s : TooltipState) :
    (NgbTooltip.isOpen s = true ↔ s.windowRef.isSome = true)
    ∧ NgbTooltip.toggle s =
        (if s.windowRef.isSome then NgbTooltip.closeDefault s else NgbTooltip.openTooltip s) :=
  ⟨Iff.rfl, rfl⟩

/-- C1 witness: the property instantiated at the opened sample state. -/
theorem NgbTooltip.isOpen_toggle_spec_witness :
    (NgbTooltip.isOpen sampleOpen = true ↔ sampleOpen.windowRef.isSome = true)
    ∧ NgbTooltip.toggle sampleOpen =
        (if sampleOpen.windowRef.isSome then NgbTooltip.closeDefault sampleOpen
         else NgbTooltip.openTooltip sampleOpen) :=
  NgbTooltip.isOpen_toggle_spec sampleOpen

/-- C2: calling open() while a popup window already exists changes
nothing, so each directive instance manages at most one popup node. -/
theorem NgbTooltip.open_noop_when_open (s : TooltipState)
    (h : NgbTooltip.isOpen s = true) :
    NgbTooltip.openTooltip s = s := by
  cases hw : s.windowRef with
  | none => simp [NgbTooltip.isOpen, hw] at h
  | some w => simp [NgbTooltip.openTooltip, NgbTooltip.canOpen, hw]

/-- C2 witness: opening the already-open sample state is the identity. -/
theorem NgbTooltip.open_noop_when_open_witness :
    NgbTooltip.isOpen sampleOpen = true
    ∧ NgbTooltip.openTooltip sampleOpen = sampleOpen :=
  ⟨by decide, NgbTooltip.open_noop_when_open sampleOpen (by decide)⟩

/-- C7: close() with no popup window is a no-op leaving all state
unchanged, for any animation argument and for the default argument. -/
theorem NgbTooltip.close_noop_when_closed (s : TooltipState) (anim : Bool)
    (h : s.windowRef = none) :
    NgbTooltip.close anim s = s ∧ NgbTooltip.closeDefault s = s := by
  constructor <;> simp [NgbTooltip.close, NgbTooltip.closeDefault, h]

/-- C7 witness: closing the closed sample state is the identity. -/
theorem NgbTooltip.close_noop_when_closed_witness :
    NgbTooltip.close true sampleClosed = sampleClosed
    ∧ NgbTooltip.closeDefault sampleClosed = sampleClosed :=
  NgbTooltip.close_noop_when_closed sampleClosed true (by decide)

/-- C8: open() is a no-op when the content is falsy or the tooltip is
disabled: no window is created, no aria attribute is set, no positioning
is started and no shown event is emitted. -/
theorem NgbTooltip.open_noop_when_disabled_or_falsy (s : TooltipState)
    (h : s.ngbTooltipContent.truthy = false ∨ s.disableTooltip = true) :
    NgbTooltip.openTooltip s = s
    ∧ (NgbTooltip.openTooltip s).windowRef = s.windowRef
    ∧ (NgbTooltip.openTooltip s).targetAria = s.targetAria
    ∧ (NgbTooltip.openTooltip s).positioningActive = s.positioningActive
    ∧ (NgbTooltip.openTooltip s).shownCount = s.shownCount := by
  have hc : NgbTooltip.canOpen s = false := by
    unfold NgbTooltip.canOpen
    rcases h with h | h <;> simp [h]
  have he : NgbTooltip.openTooltip s = s := by
    simp [NgbTooltip.openTooltip, hc]
  exact ⟨he, by rw [he], by rw [he], by rw [he], by rw [he]⟩

/-- C8 witness: opening the disabled sample state is the identity. -/
theorem NgbTooltip.open_noop_when_disabled_or_falsy_witness :
    NgbTooltip.openTooltip sampleDisabled = sampleDisabled
    ∧ (NgbTooltip.openTooltip sampleDisabled).windowRef = sampleDisabled.windowRef
    ∧ (NgbTooltip.openTooltip sampleDisabled).targetAria = sampleDisabled.targetAria
    ∧ (NgbTooltip.openTooltip sampleDisabled).positioningActive = sampleDisabled.positioningActive
    ∧ (NgbTooltip.openTooltip sampleDisabled).shownCount = sampleDisabled.shownCount :=
  NgbTooltip.open_noop_when_disabled_or_falsy sampleDisabled (Or.inr rfl)

/-- C9: assigning a falsy ngbTooltip value while a window exists stores
the value and initiates close(); assigning a falsy value with no window,
or any truthy value, only stores the value. -/
theorem NgbTooltip.setNgbTooltip_spec (value : TooltipContent) (s : TooltipState) :
    (value.truthy = false → NgbTooltip.isOpen s = true →
      NgbTooltip.setNgbTooltip value s
        = NgbTooltip.closeDefault { s with ngbTooltipContent := value })
    ∧ (value.truthy = false → NgbTooltip.isOpen s = false →
      NgbTooltip.setNgbTooltip value s = { s with ngbTooltipContent := value })
    ∧ (value.truthy = true →
      NgbTooltip.setNgbTooltip value s = { s with ngbTooltipContent := value }) := by
  refine ⟨fun hv ho => ?_, fun hv ho => ?_, fun hv => ?_⟩ <;>
    simp only [NgbTooltip.isOpen] at * <;>
    simp [NgbTooltip.setNgbTooltip, hv, *]

/-- C9 witness: the three cases at concrete states. -/
theorem NgbTooltip.setNgbTooltip_spec_witness :
    NgbTooltip.setNgbTooltip .undef sampleOpen
      = NgbTooltip.closeDefault { sampleOpen with ngbTooltipContent := .undef }
    ∧ NgbTooltip.setNgbTooltip .undef sampleClosed
      = { sampleClosed with ngbTooltipContent := .undef }
    ∧ NgbTooltip.setNgbTooltip (.str "hi") sampleClosed
      = { sampleClosed with ngbTooltipContent := .str "hi" } :=
  ⟨(NgbTooltip.setNgbTooltip_spec .undef sampleOpen).1 rfl (by decide),
   (NgbTooltip.setNgbTooltip_spec .undef sampleClosed).2.1 rfl (by decide),
   (NgbTooltip.setNgbTooltip_spec (.str "hi") sampleClosed).2.2 (by decide)⟩

/-- C3: a successful open() writes aria-describedby on the position
target with the window id (which is also the id set on the window
component), and close() with an existing window removes the attribute. -/
theorem NgbTooltip.aria_spec (s : TooltipState) (anim : Bool) :
    (NgbTooltip.canOpen s = true →
      (NgbTooltip.openTooltip s).targetAria = some s.ngbTooltipWindowId
      ∧ ∃ w, (NgbTooltip.openTooltip s).windowRef = some w
          ∧ w.id = s.ngbTooltipWindowId)
    ∧ (NgbTooltip.isOpen s = true →
      (NgbTooltip.close anim s).targetAria = none) := by
  constructor
  · intro h
    refine ⟨by simp [NgbTooltip.openTooltip, h], ?_⟩
    refine ⟨{ animation := s.animation
              tooltipClass := s.tooltipClass
              id := s.ngbTooltipWindowId
              nativeElement := s.nextElement }, ?_, rfl⟩
    simp [NgbTooltip.openTooltip, h]
  · intro h
    simp only [NgbTooltip.isOpen] at h
    simp [NgbTooltip.close, h]

/-- C3 witness: the property at the sample states. -/
theorem NgbTooltip.aria_spec_witness :
    ((NgbTooltip.openTooltip sampleClosed).targetAria
        = some sampleClosed.ngbTooltipWindowId
      ∧ ∃ w, (NgbTooltip.openTooltip sampleClosed).windowRef = some w
          ∧ w.id = sampleClosed.ngbTooltipWindowId)
    ∧ (NgbTooltip.close false sampleOpen).targetAria = none :=
  ⟨(NgbTooltip.aria_spec sampleClosed false).1 (by decide),
   (NgbTooltip.aria_spec sampleOpen false).2 (by decide)⟩

/-- C4: a successful open() creates the popup window with the animation,
tooltipClass and id inputs set; a subsequent close() (any animation
argument) or ngOnDestroy() leaves the window reference null, the
positioning destroyed and the hidden event emitted. -/
theorem NgbTooltip.lifecycle_spec (s : TooltipState) (anim : Bool)
    (h : NgbTooltip.canOpen s = true) :
    (NgbTooltip.openTooltip s).windowRef =
      some { animation := s.animation
             tooltipClass := s.tooltipClass
             id := s.ngbTooltipWindowId
             nativeElement := s.nextElement }
    ∧ (NgbTooltip.close anim (NgbTooltip.openTooltip s)).windowRef = none
    ∧ (NgbTooltip.close anim (NgbTooltip.openTooltip s)).positioningActive = false
    ∧ (NgbTooltip.close anim (NgbTooltip.openTooltip s)).hiddenCount
        = (NgbTooltip.openTooltip s).hiddenCount + 1
    ∧ (NgbTooltip.ngOnDestroy (NgbTooltip.openTooltip s)).windowRef = none
    ∧ (NgbTooltip.ngOnDestroy (NgbTooltip.openTooltip s)).positioningActive = false
    ∧ (NgbTooltip.ngOnDestroy (NgbTooltip.openTooltip s)).hiddenCount
        = (NgbTooltip.openTooltip s).hiddenCount + 1 := by
  have hw : (NgbTooltip.openTooltip s).windowRef =
      some { animation := s.animation
             tooltipClass := s.tooltipClass
             id := s.ngbTooltipWindowId
             nativeElement := s.nextElement } := by
    simp [NgbTooltip.openTooltip, h]
  refine ⟨hw, ?_, ?_, ?_, ?_, ?_, ?_⟩ <;>
    simp [NgbTooltip.close, NgbTooltip.ngOnDestroy, hw] <;>
    split <;> rfl

/-- C4 witness: the lifecycle at the sample closed state. -/
theorem NgbTooltip.lifecycle_spec_witness :
    (NgbTooltip.openTooltip sampleClosed).windowRef =
      some { animation := sampleClosed.animation
             tooltipClass := sampleClosed.tooltipClass
             id := sampleClosed.ngbTooltipWindowId
             nativeElement := sampleClosed.nextElement }
    ∧ (NgbTooltip.close true (NgbTooltip.openTooltip sampleClosed)).windowRef = none
    ∧ (NgbTooltip.close true (NgbTooltip.openTooltip sampleClosed)).positioningActive = false
    ∧ (NgbTooltip.close true (NgbTooltip.openTooltip sampleClosed)).hiddenCount
        = (NgbTooltip.openTooltip sampleClosed).hiddenCount + 1
    ∧ (NgbTooltip.ngOnDestroy (NgbTooltip.openTooltip sampleClosed)).windowRef = none
    ∧ (NgbTooltip.ngOnDestroy (NgbTooltip.openTooltip sampleClosed)).positioningActive = false
    ∧ (NgbTooltip.ngOnDestroy (NgbTooltip.openTooltip sampleClosed)).hiddenCount
        = (NgbTooltip.openTooltip sampleClosed).hiddenCount + 1 :=
  NgbTooltip.lifecycle_spec sampleClosed true (by decide)

/-- C5: ngOnInit registers trigger listeners through listenToTriggers
with the host element, the triggers string and the delays coerced by
unary plus (the isOpen/open/close callbacks are the directive operations
by construction), storing the unregister function; and a successful
open() calls ngbAutoClose with the configured mode and the created popup
window element (the close callback is the directive close by
construction). -/
theorem NgbTooltip.delegation_spec (s t : TooltipState)
    (h : NgbTooltip.canOpen t = true) :
    (NgbTooltip.ngOnInit s).listenCalls =
      { hostElement := s.hostElement
        triggers := s.triggers
        openDelay := jsUnaryPlus s.openDelay
        closeDelay := jsUnaryPlus s.closeDelay } :: s.listenCalls
    ∧ (NgbTooltip.ngOnInit s).unregisterListenersFn = true
    ∧ ∃ w, (NgbTooltip.openTooltip t).windowRef = some w
        ∧ (NgbTooltip.openTooltip t).autoCloseCalls =
            { mode := t.autoClose, elements := [w.nativeElement] } :: t.autoCloseCalls := by
  refine ⟨rfl, rfl, ?_⟩
  refine ⟨{ animation := t.animation
            tooltipClass := t.tooltipClass
            id := t.ngbTooltipWindowId
            nativeElement := t.nextElement }, ?_, ?_⟩ <;>
    simp [NgbTooltip.openTooltip, h]

/-- C5 witness: the delegation property at the sample closed state. -/
theorem NgbTooltip.delegation_spec_witness :
    (NgbTooltip.ngOnInit sampleClosed).listenCalls =
      { hostElement := sampleClosed.hostElement
        triggers := sampleClosed.triggers
        openDelay := jsUnaryPlus sampleClosed.openDelay
        closeDelay := jsUnaryPlus sampleClosed.closeDelay } :: sampleClosed.listenCalls
    ∧ (NgbTooltip.ngOnInit sampleClosed).unregisterListenersFn = true
    ∧ ∃ w, (NgbTooltip.openTooltip sampleClosed).windowRef = some w
        ∧ (NgbTooltip.openTooltip sampleClosed).autoCloseCalls =
            { mode := sampleClosed.autoClose, elements := [w.nativeElement] }
              :: sampleClosed.autoCloseCalls :=
  NgbTooltip.delegation_spec sampleClosed sampleClosed (by decide)

/-- A zone-stability notification does not change whether the zone
subscription is active. -/
theorem zoneStable_zoneSubscribed (s : TooltipState) :
    (zoneStable s).zoneSubscribed = s.zoneSubscribed := by
  unfold zoneStable
  split <;> rfl

/-- While the zone subscription is active, each of the next m
zone-stability notifications performs one positioning update. -/
theorem zoneStable_iterate_of_subscribed :
    ∀ (m : Nat) (s : TooltipState), s.zoneSubscribed = true →
      (zoneStable^[m] s).updateCount = s.updateCount + m
  | 0, s, _ => by simp
  | m + 1, s, h => by
      rw [Function.iterate_succ_apply]
      rw [zoneStable_iterate_of_subscribed m (zoneStable s)
        (by rw [zoneStable_zoneSubscribed]; exact h)]
      have h1 : (zoneStable s).updateCount = s.updateCount + 1 := by
        simp [zoneStable, h]
      rw [h1]
      omega

/-- With the zone subscription inactive, zone-stability notifications
change nothing. -/
theorem zoneStable_iterate_of_unsubscribed :
    ∀ (m : Nat) (s : TooltipState), s.zoneSubscribed = false →
      zoneStable^[m] s = s
  | 0, _, _ => rfl
  | m + 1, s, h => by
      rw [Function.iterate_succ_apply]
      have h1 : zoneStable s = s := by simp [zoneStable, h]
      rw [h1, zoneStable_iterate_of_unsubscribed m s h]

/-- C6: a successful open() performs the initial positioning update and
subscribes to zone stability, after which every zone-stability
notification performs one positioning update; close() on an open tooltip
unsubscribes from zone stability and destroys the popper instance, and
afterwards no sequence of zone-stability notifications ever performs
another update. -/
theorem NgbTooltip.positioning_loop_spec (s : TooltipState) (anim : Bool)
    (m n : Nat) :
    (NgbTooltip.canOpen s = true →
      (NgbTooltip.openTooltip s).zoneSubscribed = true
      ∧ (NgbTooltip.openTooltip s).updateCount = s.updateCount + 1
      ∧ (zoneStable^[m] (NgbTooltip.openTooltip s)).updateCount
          = (NgbTooltip.openTooltip s).updateCount + m)
    ∧ (NgbTooltip.isOpen s = true →
      (NgbTooltip.close anim s).zoneSubscribed = false
      ∧ (NgbTooltip.close anim s).positioningActive = false
      ∧ zoneStable^[n] (NgbTooltip.close anim s) = NgbTooltip.close anim s) := by
  constructor
  · intro h
    have hsub : (NgbTooltip.openTooltip s).zoneSubscribed = true := by
      simp [NgbTooltip.openTooltip, h]
    refine ⟨hsub, by simp [NgbTooltip.openTooltip, h], ?_⟩
    exact zoneStable_iterate_of_subscribed m _ hsub
  · intro h
    simp only [NgbTooltip.isOpen] at h
    have hsub : (NgbTooltip.close anim s).zoneSubscribed = false := by
      simp [NgbTooltip.close, h]
    refine ⟨hsub, by simp [NgbTooltip.close, h], ?_⟩
    exact zoneStable_iterate_of_unsubscribed n _ hsub

/-- C6 witness: the update-loop property at the sample states, with
three notifications after open and three after close. -/
theorem NgbTooltip.positioning_loop_spec_witness :
    ((NgbTooltip.openTooltip sampleClosed).zoneSubscribed = true
      ∧ (NgbTooltip.openTooltip sampleClosed).updateCount
          = sampleClosed.updateCount + 1
      ∧ (zoneStable^[3] (NgbTooltip.openTooltip sampleClosed)).updateCount
          = (NgbTooltip.openTooltip sampleClosed).updateCount + 3)
    ∧ ((NgbTooltip.close false sampleOpen).zoneSubscribed = false
      ∧ (NgbTooltip.close false sampleOpen).positioningActive = false
      ∧ zoneStable^[3] (NgbTooltip.close false sampleOpen)
          = NgbTooltip.close false sampleOpen) :=
  ⟨(NgbTooltip.positioning_loop_spec sampleClosed false 3 3).1 (by decide),
   (NgbTooltip.positioning_loop_spec sampleOpen false 3 3).2 (by decide)⟩

/-- C10: ngOnDestroy always calls close(false) (so PopupService.close
receives false exactly when a window existed, and the window is gone
afterwards), and it invokes the stored unregister function only when
ngOnInit registered one; when ngOnInit never ran it reduces to
close(false) alone and nothing fails. -/
theorem NgbTooltip.ngOnDestroy_spec (s : TooltipState) :
    (NgbTooltip.ngOnDestroy s).popupCloseCalls =
      (if NgbTooltip.isOpen s then false :: s.popupCloseCalls else s.popupCloseCalls)
    ∧ (s.unregisterListenersFn = false →
        NgbTooltip.ngOnDestroy s = NgbTooltip.close false s)
    ∧ (NgbTooltip.ngOnDestroy s).unregisterCalls =
        (if s.unregisterListenersFn then s.unregisterCalls + 1 else s.unregisterCalls)
    ∧ (NgbTooltip.ngOnDestroy s).windowRef = none := by
  have hreg : (NgbTooltip.close false s).unregisterListenersFn
      = s.unregisterListenersFn := by
    unfold NgbTooltip.close
    split <;> rfl
  have hcalls : (NgbTooltip.close false s).popupCloseCalls =
      (if NgbTooltip.isOpen s then false :: s.popupCloseCalls else s.popupCloseCalls) := by
    unfold NgbTooltip.close NgbTooltip.isOpen
    split <;> simp_all
  have hucalls : (NgbTooltip.close false s).unregisterCalls = s.unregisterCalls := by
    unfold NgbTooltip.close
    split <;> rfl
  have hwin : (NgbTooltip.close false s).windowRef = none := by
    unfold NgbTooltip.close
    cases hw : s.windowRef <;> simp [hw]
  refine ⟨?_, ?_, ?_, ?_⟩
  · cases hu : s.unregisterListenersFn <;>
      simp [NgbTooltip.ngOnDestroy, hreg, hcalls, hu]
  · intro h
    simp [NgbTooltip.ngOnDestroy, hreg, h]
  · cases hu : s.unregisterListenersFn <;>
      simp [NgbTooltip.ngOnDestroy, hreg, hucalls, hu]
  · cases hu : s.unregisterListenersFn <;>
      simp [NgbTooltip.ngOnDestroy, hreg, hwin, hu]

/-- C10 witness: destroying the sample state that never saw ngOnInit. -/
theorem NgbTooltip.ngOnDestroy_spec_witness :
    (NgbTooltip.ngOnDestroy sampleOpen).popupCloseCalls =
      (if NgbTooltip.isOpen sampleOpen then false :: sampleOpen.popupCloseCalls
       else sampleOpen.popupCloseCalls)
    ∧ NgbTooltip.ngOnDestroy sampleOpen = NgbTooltip.close false sampleOpen
    ∧ (NgbTooltip.ngOnDestroy sampleOpen).unregisterCalls =
        (if sampleOpen.unregisterListenersFn then sampleOpen.unregisterCalls + 1
         else sampleOpen.unregisterCalls)
    ∧ (NgbTooltip.ngOnDestroy sampleOpen).windowRef = none :=
  ⟨(NgbTooltip.ngOnDestroy_spec sampleOpen).1,
   (NgbTooltip.ngOnDestroy_spec sampleOpen).2.1 (by decide),
   (NgbTooltip.ngOnDestroy_spec sampleOpen).2.2.1,
   (NgbTooltip.ngOnDestroy_spec sampleOpen).2.2.2⟩
